import Mathlib

/-!
Verification of the API-client / workflow-state layer of the skin-lesion
frontend (Python sources under `src/`).  Python functions are shallowly
embedded as Lean functions: machine floats appearing only in comparisons are
modelled as rationals, Python exceptions as `Except String`, the backend HTTP
layer as an explicit outcome value handed to each client function, and the
mutable session state of the analysis page as an explicit record threaded
through the workflow functions.
-/

namespace SkinLesion

/-! ## Small string helpers (models of Python string/format primitives) -/

/-- Zero-padded 2-digit rendering, model of the `%02d` fields of
`strftime` (inputs are always `< 100` there). -/
def pad2 (n : Nat) : List Char :=
  [Nat.digitChar (n / 10 % 10), Nat.digitChar (n % 10)]

/-- Zero-padded 3-digit rendering, model of Python `%03d` for inputs
`0 ≤ n ≤ 999`. -/
def pad3 (n : Nat) : List Char :=
  [Nat.digitChar (n / 100 % 10), Nat.digitChar (n / 10 % 10), Nat.digitChar (n % 10)]

/-- Zero-padded 4-digit rendering, model of `strftime` `%Y` for years
`< 10000`. -/
def pad4 (n : Nat) : List Char :=
  [Nat.digitChar (n / 1000 % 10), Nat.digitChar (n / 100 % 10),
   Nat.digitChar (n / 10 % 10), Nat.digitChar (n % 10)]

theorem digitChar_isDigit {n : Nat} (h : n < 10) : (Nat.digitChar n).isDigit = true := by
  interval_cases n <;> decide

theorem digitChar_mod10_isDigit (n : Nat) : (Nat.digitChar (n % 10)).isDigit = true :=
  digitChar_isDigit (Nat.mod_lt _ (by decide))

/-! ## Model of `config.py` -/

/-- One entry of the `ANATOMICAL_LOCATIONS` master dictionary:
display name, API value and 2-letter location code. -/
structure LocEntry where
  display : String
  api_value : String
  code : String
deriving DecidableEq, Repr

/-- `config.ANATOMICAL_LOCATIONS`, in dictionary insertion order. -/
def ANATOMICAL_LOCATIONS : List LocEntry :=
  [⟨"Head and Neck", "head & neck", "HN"⟩,
   ⟨"Torso Front", "torso front", "FT"⟩,
   ⟨"Torso Back", "torso back", "BT"⟩,
   ⟨"Left Leg", "left leg", "LL"⟩,
   ⟨"Right Leg", "right leg", "RL"⟩,
   ⟨"Left Arm", "left arm", "LA"⟩,
   ⟨"Right Arm", "right arm", "RA"⟩]

/-- `config.VALID_ANATOMICAL_LOCATIONS`. -/
def VALID_ANATOMICAL_LOCATIONS : List String :=
  ANATOMICAL_LOCATIONS.map (·.api_value)

/-- `config.get_location_code`: linear scan over the location entries,
`ValueError` (modelled as `.error`) when the API value is unknown. -/
def get_location_code (api_location : String) : Except String String :=
  match ANATOMICAL_LOCATIONS.find? (fun d => d.api_value == api_location) with
  | some d => .ok d.code
  | none => .error ("Unknown location: " ++ api_location)

/-- `config.AGE_MAX`. -/
def AGE_MAX : Nat := 120

/-- `config.DIAMETER_MIN` (millimeters). -/
def DIAMETER_MIN : ℚ := 0

/-- `config.DIAMETER_MAX` (millimeters). -/
def DIAMETER_MAX : ℚ := 200

/-! ## Model of `utils/validators.py`: lesion sizes

Python floats are modelled as rationals (only comparisons are performed);
Python `None` arguments become `Option.none`. -/

/-- `validators.validate_initial_lesion_size`. -/
def validate_initial_lesion_size (size_mm : Option ℚ) : Bool × String :=
  match size_mm with
  | none => (false, "Initial lesion size is required")
  | some s =>
    if s ≤ 0 then (false, "Lesion size must be greater than 0 mm")
    else (true, "")

/-- `validators.validate_current_lesion_size`. -/
def validate_current_lesion_size (size_mm : Option ℚ) : Bool × String :=
  match size_mm with
  | none => (false, "Current lesion size is required")
  | some s =>
    if s < DIAMETER_MIN then (false, "Lesion size for analysis must be at least 0.0 mm")
    else if s > DIAMETER_MAX then (false, "Lesion size for analysis cannot exceed 200.0 mm")
    else (true, "")

/-! ## Model of `utils/id_generator.py` -/

/-- A wall-clock time of day, as read by `datetime.now().strftime` (the
field bounds are those guaranteed by the standard library). -/
structure Clock where
  hour : Fin 24
  minute : Fin 60
  second : Fin 60
deriving DecidableEq, Repr

/-- A full `datetime.now()` reading at one-second resolution, as used by
`generate_patient_id` (`%Y%m%d%H%M%S`). -/
structure Stamp where
  year : Nat
  month : Nat
  day : Nat
  time : Clock
deriving DecidableEq, Repr

/-- `strftime("%H%M%S")` for a clock reading. -/
def hhmmss (c : Clock) : List Char :=
  pad2 c.hour.val ++ pad2 c.minute.val ++ pad2 c.second.val

/-- Python negative-index slice `s[-3:]`: the last `n` characters. -/
def takeLast (n : Nat) (l : List Char) : List Char :=
  (l.reverse.take n).reverse

/-- `id_generator.generate_patient_id`: `PAT-` followed by the
`%Y%m%d%H%M%S` timestamp. -/
def generate_patient_id (t : Stamp) : String :=
  "PAT-" ++ String.mk (pad4 t.year ++ pad2 t.month ++ pad2 t.day ++ hhmmss t.time)

/-- `id_generator.generate_lesion_id`: location code from config plus a
3-digit counter, defaulting to the last three digits of `%H%M%S`.
Python `ValueError` is modelled as `.error`. -/
def generate_lesion_id (api_location : String) (counter : Option Int) (now : Clock) :
    Except String String := do
  let location_code ← get_location_code api_location
  let counter_str ←
    match counter with
    | some c =>
      if 1 ≤ c ∧ c ≤ 999 then pure (String.mk (pad3 c.toNat))
      else Except.error ("Counter must be between 1 and 999, got " ++ toString c)
    | none => pure (String.mk (takeLast 3 (hhmmss now)))
  pure ("LESION_" ++ location_code ++ "_" ++ counter_str)

/-! ## Calendar arithmetic (model of `datetime.date`) -/

/-- Gregorian leap-year rule, as in `datetime`. -/
def isLeap (y : Nat) : Bool :=
  y % 4 == 0 && (y % 100 != 0 || y % 400 == 0)

/-- Number of days in month `m` of year `y` (months `1..12`). -/
def daysInMonth (y m : Nat) : Nat :=
  if m = 2 then (if isLeap y then 29 else 28)
  else if m = 4 ∨ m = 6 ∨ m = 9 ∨ m = 11 then 30
  else 31

/-- Days in year `y` strictly before month `m`. -/
def daysBeforeMonth (y m : Nat) : Nat :=
  (match m with
   | 1 => 0 | 2 => 31 | 3 => 59 | 4 => 90 | 5 => 120 | 6 => 151
   | 7 => 181 | 8 => 212 | 9 => 243 | 10 => 273 | 11 => 304 | _ => 334)
  + (if 2 < m ∧ isLeap y then 1 else 0)

/-- `datetime.date.toordinal`: day number counted from 0001-01-01 = 1. -/
def toOrdinal (y m d : Nat) : Nat :=
  365 * (y - 1) + (y - 1) / 4 - (y - 1) / 100 + (y - 1) / 400 + daysBeforeMonth y m + d

/-! ## Model of `datetime.strptime(_, "%d/%m/%Y")`

CPython compiles the format to the regex
`(3[01]|[12]\d|0[1-9]|[1-9])/(1[0-2]|0[1-9]|[1-9])/(\d\d\d\d)` (alternatives
tried in that order, whole string must be consumed) and then builds a
`datetime`, which raises `ValueError` for an out-of-range day or a zero
year.  The day and month alternatives of different lengths are mutually
exclusive on the following character, so the regex match is unique. -/

/-- Numeric value of a decimal digit character. -/
def digitVal (c : Char) : Nat := c.toNat - 48

/-- Candidate matches, in regex priority order, of the `%d` day group. -/
def dayAlts (cs : List Char) : List (Nat × List Char) :=
  (match cs with
   | c1 :: c2 :: rest =>
     (if c1 = '3' ∧ (c2 = '0' ∨ c2 = '1') then [(30 + digitVal c2, rest)] else []) ++
     (if (c1 = '1' ∨ c1 = '2') ∧ c2.isDigit then [(digitVal c1 * 10 + digitVal c2, rest)] else []) ++
     (if c1 = '0' ∧ c2.isDigit ∧ c2 ≠ '0' then [(digitVal c2, rest)] else [])
   | _ => []) ++
  (match cs with
   | c1 :: rest => if c1.isDigit ∧ c1 ≠ '0' then [(digitVal c1, rest)] else []
   | _ => [])

/-- Candidate matches, in regex priority order, of the `%m` month group. -/
def monthAlts (cs : List Char) : List (Nat × List Char) :=
  (match cs with
   | c1 :: c2 :: rest =>
     (if c1 = '1' ∧ (c2 = '0' ∨ c2 = '1' ∨ c2 = '2') then [(10 + digitVal c2, rest)] else []) ++
     (if c1 = '0' ∧ c2.isDigit ∧ c2 ≠ '0' then [(digitVal c2, rest)] else [])
   | _ => []) ++
  (match cs with
   | c1 :: rest => if c1.isDigit ∧ c1 ≠ '0' then [(digitVal c1, rest)] else []
   | _ => [])

/-- Exactly four decimal digits (the `%Y` group). -/
def year4 (cs : List Char) : Option (Nat × List Char) :=
  match cs with
  | c1 :: c2 :: c3 :: c4 :: rest =>
    if c1.isDigit ∧ c2.isDigit ∧ c3.isDigit ∧ c4.isDigit then
      some (digitVal c1 * 1000 + digitVal c2 * 100 + digitVal c3 * 10 + digitVal c4, rest)
    else none
  | _ => none

/-- The unique full regex match of `DD/MM/YYYY`, if any. -/
def matchDMY (cs : List Char) : Option (Nat × Nat × Nat) :=
  (dayAlts cs).firstM (fun dr =>
    match dr.2 with
    | '/' :: r2 =>
      (monthAlts r2).firstM (fun mr =>
        match mr.2 with
        | '/' :: r4 =>
          match year4 r4 with
          | some (y, []) => some (y, mr.1, dr.1)
          | _ => none
        | _ => none)
    | _ => none)

/-- `datetime.strptime(s, "%d/%m/%Y")`, returning `(year, month, day)`;
`none` models `ValueError` (no regex match, day out of range for the
month, or year zero). -/
def strptimeDMY (s : String) : Option (Nat × Nat × Nat) :=
  match matchDMY s.toList with
  | some (y, m, d) =>
    if 1 ≤ y ∧ d ≤ daysInMonth y m then some (y, m, d) else none
  | none => none

/-! ## Model of `validators.validate_date_of_birth` and
`validators.calculate_age_from_dob` -/

/-- The `datetime.now()` instant: ordinal day plus seconds into the day. -/
structure NowDT where
  ord : Nat
  tod : Nat
deriving DecidableEq, Repr

/-- Python `int(q)`: truncation toward zero. -/
def truncQ (q : ℚ) : Int :=
  if 0 ≤ q then ⌊q⌋ else -⌊-q⌋

/-- `(now - birth).days` where `birth` is the parsed date at midnight:
floor of the difference in days (the only use is after a not-in-future
check, so natural subtraction is exact). -/
def daysBetween (now : NowDT) (birthOrd : Nat) : Nat :=
  (now.ord * 86400 + now.tod - birthOrd * 86400) / 86400

/-- `validators.validate_date_of_birth`.  The guard
`not date_string or not date_string.strip()` holds exactly when every
character is whitespace (including the empty string). -/
def validate_date_of_birth (now : NowDT) (date_string : String) : Bool × String :=
  if date_string.toList.all Char.isWhitespace then (false, "Date of birth is required")
  else
    match strptimeDMY date_string with
    | none => (false, "Invalid date format. Please use DD/MM/YYYY (e.g., 23/07/1980)")
    | some (y, m, d) =>
      -- `birth_date > datetime.now()`: birth is at midnight of its day
      if toOrdinal y m d * 86400 > now.ord * 86400 + now.tod then
        (false, "Date of birth cannot be in the future")
      else if ((daysBetween now (toOrdinal y m d) : ℚ) / (36525 / 100)) > (AGE_MAX : ℚ) then
        (false, "Age cannot exceed 120 years")
      else (true, "")

/-- `validators.calculate_age_from_dob`: whole years from the fixed date
format; `ValueError` on an unparseable date. -/
def calculate_age_from_dob (now : NowDT) (date_of_birth : String) : Except String Int :=
  match strptimeDMY date_of_birth with
  | some (y, m, d) =>
    -- `timedelta.days` floors toward minus infinity, `int(..)` truncates
    .ok (truncQ ((⌊(((now.ord : ℚ) * 86400 + now.tod - toOrdinal y m d * 86400) / 86400)⌋ : ℚ) / (36525 / 100)))
  | none => .error "Invalid date format"

/-! ## Model of the HTTP layer (`requests`)

Each client method receives the outcome of its single HTTP request as a
value: either a transport-level failure (`requests.exceptions.RequestException`
other than `HTTPError`) or a response carrying a status code, the decoded
JSON success payload (`none` when the body is not valid JSON of the
expected shape — `response.json()` then raises `JSONDecodeError`, a
`RequestException` subclass), and the `detail` field of the decoded error
body when one exists.  `raise_for_status` raises `HTTPError` exactly for
statuses in `[400, 600)`. -/

inductive HttpOutcome (β : Type) where
  | response (status : Nat) (json : Option β) (detail : Option String)
  | connFail (msg : String)
deriving DecidableEq, Repr

/-- Would `response.raise_for_status()` raise for this status? -/
def isHTTPError (status : Nat) : Bool := 400 ≤ status && status < 600

/-- `str(e)` for the `HTTPError` raised by `raise_for_status` (the text of
the real message also names the reason and URL; only its presence matters). -/
def httpErrStr (status : Nat) : String := toString status ++ " Error"

/-- `response.json().get('detail', str(e))` inside an error handler, with
the bare `except` falling back to `str(e)` when the body is not JSON. -/
def errorDetail (status : Nat) (detail : Option String) : String :=
  detail.getD (httpErrStr status)

/-! ## Model of `analysis_service.py` -/

/-- A Python `datetime` value as produced by `datetime.fromisoformat` or
`datetime.now()`.  `offset` is the UTC offset in minutes for an
offset-aware value and `none` for an offset-naive one; Python orders two
aware values by instant and two naive values by their local fields, and
raises `TypeError` when asked to order a naive against an aware value. -/
structure PyDateTime where
  year : Nat
  month : Nat
  day : Nat
  hour : Nat
  minute : Nat
  second : Nat
  micro : Nat
  offset : Option Int
deriving DecidableEq, Repr

/-- Comparison key of a `PyDateTime` within one comparable class: two
aware values compare by UTC instant, two naive values by their local
fields; both reduce to local microseconds minus the offset (taken as 0
when naive).  The key is meaningful only between two naive or two aware
values; a mixed comparison raises `TypeError` in Python, which the sort
model `pySortByCaptureDatetime` accounts for separately. -/
def dtKey (d : PyDateTime) : Int :=
  ((toOrdinal d.year d.month d.day * 86400 + d.hour * 3600 + d.minute * 60 + d.second : Nat) : Int)
    * 1000000 + d.micro - (d.offset.getD 0) * 60 * 1000000

/-- Exactly `n` decimal digits. -/
def digitsN (n : Nat) (cs : List Char) : Option (Nat × List Char) :=
  match n with
  | 0 => some (0, cs)
  | k + 1 =>
    match cs with
    | c :: rest =>
      if c.isDigit then
        (digitsN k rest).map (fun vr => (digitVal c * 10 ^ k + vr.1, vr.2))
      else none
    | [] => none

/-- One or more decimal digits, greedily. -/
def digits1 (cs : List Char) : Option (List Nat × List Char) :=
  match cs with
  | c :: rest =>
    if c.isDigit then
      match digits1 rest with
      | some (ds, r) => some (digitVal c :: ds, r)
      | none => some ([digitVal c], rest)
    else none
  | _ => none

/-- Fractional digits to microseconds: at most six digits are kept,
right-padded with zeros. -/
def fracToMicro (ds : List Nat) : Nat :=
  ((ds.take 6).foldl (fun a d => a * 10 + d) 0) * 10 ^ (6 - min ds.length 6)

/-- Optional `±HH:MM` UTC offset suffix; must consume the rest.  The
outer `Option` is parse success; the inner one is awareness (`none` =
no offset given = offset-naive). -/
def parseOffset (cs : List Char) : Option (Option Int) :=
  match cs with
  | [] => some none
  | sign :: r1 =>
    if sign = '+' ∨ sign = '-' then
      match digitsN 2 r1 with
      | some (oh, ':' :: r2) =>
        match digitsN 2 r2 with
        | some (om, []) =>
          if oh ≤ 23 ∧ om ≤ 59 then
            some (some ((if sign = '-' then -1 else 1) * (oh * 60 + om)))
          else none
        | _ => none
      | _ => none
    else none

/-- Optional time-of-day part `HH:MM[:SS[.ffffff]]` plus optional offset. -/
def parseTimePart (cs : List Char) : Option (Nat × Nat × Nat × Nat × Option Int) :=
  match digitsN 2 cs with
  | some (h, ':' :: r1) =>
    match digitsN 2 r1 with
    | some (mi, r2) =>
      match r2 with
      | ':' :: r3 =>
        match digitsN 2 r3 with
        | some (s, r4) =>
          match r4 with
          | '.' :: r5 =>
            match digits1 r5 with
            | some (ds, r6) => (parseOffset r6).map (fun off => (h, mi, s, fracToMicro ds, off))
            | none => none
          | _ => (parseOffset r4).map (fun off => (h, mi, s, 0, off))
        | none => none
      | _ => (parseOffset r2).map (fun off => (h, mi, 0, 0, off))
    | _ => none
  | _ => none

/-- Model of `datetime.fromisoformat`, restricted to the dashed
`YYYY-MM-DD` date with an optional `T`- or space-separated
`HH:MM[:SS[.f+]]` time and optional `±HH:MM` offset — the forms the
backend emits.  Range validation matches the constructor checks. -/
def fromisoformat (s : String) : Option PyDateTime :=
  match digitsN 4 s.toList with
  | some (y, '-' :: r1) =>
    match digitsN 2 r1 with
    | some (m, '-' :: r2) =>
      match digitsN 2 r2 with
      | some (d, r3) =>
        let mk : Nat × Nat × Nat × Nat × Option Int → Option PyDateTime := fun t =>
          if 1 ≤ y ∧ 1 ≤ m ∧ m ≤ 12 ∧ 1 ≤ d ∧ d ≤ daysInMonth y m ∧
             t.1 ≤ 23 ∧ t.2.1 ≤ 59 ∧ t.2.2.1 ≤ 59 then
            some ⟨y, m, d, t.1, t.2.1, t.2.2.1, t.2.2.2.1, t.2.2.2.2⟩
          else none
        match r3 with
        | [] => mk (0, 0, 0, 0, none)
        | sep :: r4 =>
          if sep = 'T' ∨ sep = ' ' then (parseTimePart r4).bind mk else none
      | none => none
    | _ => none
  | _ => none

/-- Python `str.replace('Z', '+00:00')` (every occurrence). -/
def replaceZ (s : String) : String :=
  String.mk (s.toList.foldr
    (fun c acc => if c = 'Z' then '+' :: '0' :: '0' :: ':' :: '0' :: '0' :: acc else c :: acc) [])

/-- A feature dictionary as found in `shap_top_features` /
`extracted_features` (string keys with numeric values). -/
abbrev FeatureDict := List (String × ℚ)

/-- `analysis_service.AnalysisCase`: field types follow the runtime values
the constructor can actually receive (`dict.get` yields `None` for missing
keys regardless of the dataclass annotations). -/
structure AnalysisCase where
  _id : Option String
  analysis_id : Option String
  patient_id : Option String
  lesion_id : Option String
  created_at : Option String
  capture_date : Option String
  days_since_first_observation : Int
  age_at_capture : Int
  lesion_size_mm : ℚ
  model_a_probability : ℚ
  model_c_probability : ℚ
  image_filename : Option String
  image_path : Option String
  shap_top_features : List FeatureDict
  shap_prediction : Option ℚ
  shap_base_value : Option ℚ
  extracted_features : List FeatureDict
deriving DecidableEq

/-- `AnalysisCase.capture_datetime`: parse `capture_date` after the `Z`
replacement; the bare `except` turns any failure (including a `None`
`capture_date`) into `datetime.now()`, passed here explicitly. -/
def capture_datetime (now : PyDateTime) (c : AnalysisCase) : PyDateTime :=
  match c.capture_date with
  | some s => (fromisoformat (replaceZ s)).getD now
  | none => now

/-- The nested `clinical_data` sub-object of one backend analysis item. -/
structure ClinicalData where
  age_at_capture : Option Int
  lesion_size_mm : Option ℚ
deriving DecidableEq

/-- The nested `temporal_data` sub-object. -/
structure TemporalData where
  capture_date : Option String
  days_since_first_observation : Option Int
deriving DecidableEq

/-- The nested `model_outputs` sub-object (each model block reduced to the
one probability the client reads). -/
structure ModelOutputs where
  image_only_probability : Option ℚ
  clinical_ml_probability : Option ℚ
  extracted_features : Option (List FeatureDict)
deriving DecidableEq

/-- The nested `image` sub-object. -/
structure ImageData where
  filename : Option String
  path : Option String
deriving DecidableEq

/-- The nested `shap_analysis` sub-object. -/
structure ShapData where
  features : Option (List FeatureDict)
  prediction : Option ℚ
  base_value : Option ℚ
deriving DecidableEq

/-- One element of the JSON array returned by
`GET /api/lesions/{id}/analyses`; `none` sub-objects model absent keys
(defaulted to `{}` by `item.get(_, {})`). -/
structure AnalysisItem where
  _id : Option String
  analysis_id : Option String
  patient_id : Option String
  lesion_id : Option String
  created_at : Option String
  clinical_data : Option ClinicalData
  model_outputs : Option ModelOutputs
  temporal_data : Option TemporalData
  image : Option ImageData
  shap_analysis : Option ShapData
deriving DecidableEq

/-- The response-parsing loop body of `get_lesion_analyses`, with the
defaults of each `.get` call. -/
def parseAnalysisItem (item : AnalysisItem) : AnalysisCase :=
  let clinical := item.clinical_data
  let outputs := item.model_outputs
  let temporal := item.temporal_data
  let imageData := item.image
  let shap := item.shap_analysis
  { _id := item._id
    analysis_id := item.analysis_id
    patient_id := item.patient_id
    lesion_id := item.lesion_id
    created_at := item.created_at
    capture_date := (temporal.bind (·.capture_date)).orElse (fun _ => item.created_at)
    days_since_first_observation := ((temporal.bind (·.days_since_first_observation)).getD 0)
    age_at_capture := ((clinical.bind (·.age_at_capture)).getD 0)
    lesion_size_mm := ((clinical.bind (·.lesion_size_mm)).getD 0)
    model_a_probability := ((outputs.bind (·.image_only_probability)).getD 0)
    model_c_probability := ((outputs.bind (·.clinical_ml_probability)).getD 0)
    image_filename := imageData.bind (·.filename)
    image_path := imageData.bind (·.path)
    shap_top_features := ((shap.bind (·.features)).getD [])
    shap_prediction := shap.bind (·.prediction)
    shap_base_value := shap.bind (·.base_value)
    extracted_features := ((outputs.bind (·.extracted_features)).getD []) }

/-! Stable ascending sort by an integer key.  Python `list.sort` is a
stable sort; any stable sort that orders the list ascending by key
produces the same output, so insertion sort is an exact model. -/

/-- Insert an element before the first existing element of
greater-or-equal key. -/
def sortInsert (key : α → Int) (a : α) : List α → List α
  | [] => [a]
  | b :: l => if key a ≤ key b then a :: b :: l else b :: sortInsert key a l

/-- Stable ascending insertion sort, model of `list.sort(key=...)`. -/
def sortStable (key : α → Int) : List α → List α
  | [] => []
  | a :: l => sortInsert key a (sortStable key l)

/-- Sort key used at `analyses.sort(key=lambda x: x.capture_datetime)`. -/
def captureKey (now : PyDateTime) (c : AnalysisCase) : Int :=
  dtKey (capture_datetime now c)

/-- The `analyses.sort(key=lambda x: x.capture_datetime)` call.  CPython
raises `TypeError` when ordering an offset-naive against an offset-aware
datetime.  A comparison sort over a list holding both classes necessarily
performs such a mixed comparison (the relative order of the two classes
cannot be derived through other elements), while a uniformly naive or
uniformly aware key list sorts without error; so the sort raises exactly
when both classes occur among the keys.  The `TypeError` escapes
`get_lesion_analyses` uncaught (its handlers catch only the request
exceptions). -/
def pySortByCaptureDatetime (now : PyDateTime) (cases : List AnalysisCase) :
    Except String (List AnalysisCase) :=
  let ks := cases.map (capture_datetime now)
  if (ks.any fun k => k.offset.isNone) && (ks.any fun k => k.offset.isSome) then
    .error "TypeError: cannot compare offset-naive and offset-aware datetimes"
  else .ok (sortStable (captureKey now) cases)

/-- `AnalysisService.get_lesion_analyses`: parse every item, sort by
capture datetime; 404 yields `[]`, other HTTP errors raise with the detail
message, transport failures raise a connection error, and a response
mixing offset-aware and offset-naive capture datetimes raises an uncaught
`TypeError` from the sort. -/
def get_lesion_analyses (now : PyDateTime) (o : HttpOutcome (List AnalysisItem)) :
    Except String (List AnalysisCase) :=
  match o with
  | .connFail msg => .error ("Connection error: " ++ msg)
  | .response status json detail =>
    if isHTTPError status then
      if status == 404 then .ok []
      else .error ("Failed to get lesion analyses: " ++ errorDetail status detail)
    else
      match json with
      | some items => pySortByCaptureDatetime now (items.map parseAnalysisItem)
      | none => .error ("Connection error: " ++ httpErrStr status)

/-- `AnalysisService.get_feature_display_names`: any transport failure
(including an undecodable success body) degrades to the empty mapping, a
404 degrades to the empty mapping, but other HTTP errors raise. -/
def get_feature_display_names (o : HttpOutcome (List (String × String))) :
    Except String (List (String × String)) :=
  match o with
  | .connFail _ => .ok []
  | .response status json detail =>
    if isHTTPError status then
      if status == 404 then .ok []
      else .error ("Failed to get feature names: " ++ errorDetail status detail)
    else
      match json with
      | some m => .ok m
      | none => .ok []

/-! ## Model of `patient_lesion_service.py` -/

/-- `patient_lesion_service.Patient` (the fields deserialized from the
backend; `created_at` and `_id` may be absent). -/
structure Patient where
  patient_id : String
  patient_full_name : String
  sex : String
  date_of_birth : String
  created_at : Option String := none
  _id : Option String := none
deriving DecidableEq, Repr

/-- `patient_lesion_service.Lesion`. -/
structure Lesion where
  lesion_id : String
  patient_id : String
  lesion_location : String
  initial_size_mm : ℚ
  created_at : Option String := none
  _id : Option String := none
deriving DecidableEq, Repr

/-- `PatientLesionService.search_patients_by_name`: terms shorter than two
characters return `[]` before any request is built; otherwise the single
search request is issued and handled.  The first component records the
requests issued (`true` = the search request went out). -/
def search_patients_by_name (search_term : String)
    (o : HttpOutcome (List Patient)) : Bool × Except String (List Patient) :=
  if search_term.length < 2 then (false, .ok [])
  else
    (true,
      match o with
      | .connFail msg => .error ("Connection error: " ++ msg)
      | .response status json detail =>
        if isHTTPError status then
          .error ("Search failed: " ++ errorDetail status detail)
        else
          match json with
          | some ps => .ok ps
          | none => .error ("Connection error: " ++ httpErrStr status))

/-- `PatientLesionService.get_patient_by_id`: an explicit 404 check before
`raise_for_status` maps not-found to `None`. -/
def get_patient_by_id (o : HttpOutcome Patient) : Except String (Option Patient) :=
  match o with
  | .connFail msg => .error ("Connection error: " ++ msg)
  | .response status json detail =>
    if status == 404 then .ok none
    else if isHTTPError status then
      .error ("Failed to get patient: " ++ errorDetail status detail)
    else
      match json with
      | some p => .ok (some p)
      | none => .error ("Connection error: " ++ httpErrStr status)

/-- `PatientLesionService.get_lesion_by_id`. -/
def get_lesion_by_id (o : HttpOutcome Lesion) : Except String (Option Lesion) :=
  match o with
  | .connFail msg => .error ("Connection error: " ++ msg)
  | .response status json detail =>
    if status == 404 then .ok none
    else if isHTTPError status then
      .error ("Failed to get lesion: " ++ errorDetail status detail)
    else
      match json with
      | some l => .ok (some l)
      | none => .error ("Connection error: " ++ httpErrStr status)

/-! ## Model of `app_pages/analysis.py` -/

/-- `prediction_service.PredictionResponse` (metadata reduced to a string
dictionary; floats as rationals). -/
structure PredictionResponse where
  model_a_probability : ℚ
  model_c_probability : ℚ
  extracted_features : List FeatureDict
  metadata : List (String × String)
  analysis_id : Option String := none
deriving DecidableEq, Repr

/-- The captured form metadata stored as `last_input` /
`last_display_metadata`. -/
structure InputMeta where
  age : Int
  sex : String
  location : String
  diameter : ℚ
deriving DecidableEq, Repr

/-- The draft patient held in `st.session_state.patient_data`. -/
structure PatientDraft where
  full_name : String
  date_of_birth : String
  sex : String
  patient_id : Option String
deriving DecidableEq, Repr

/-- The draft lesion held in `st.session_state.lesion_data`. -/
structure LesionDraft where
  location : String
  location_display : String
  initial_size_mm : ℚ
  lesion_id : Option String
deriving DecidableEq, Repr

/-- The session-state fields touched by the analysis page.
`last_uploaded_file`, `last_input` and `last_display_metadata` are only
ever assigned inside `perform_analysis`; before that they are absent,
modelled as `none`. -/
structure SessionState where
  patient_data_ready : Bool
  patient_is_new : Bool
  lesion_data_ready : Bool
  lesion_is_new : Bool
  analysis_complete : Bool
  patient_data : Option PatientDraft
  lesion_data : Option LesionDraft
  last_response : Option PredictionResponse
  show_shap : Bool
  last_uploaded_file : Option String
  last_input : Option InputMeta
  last_display_metadata : Option InputMeta
deriving DecidableEq, Repr

/-- `initialize_session_state` on a fresh session. -/
def initialState : SessionState :=
  { patient_data_ready := false
    patient_is_new := true
    lesion_data_ready := false
    lesion_is_new := true
    analysis_complete := false
    patient_data := none
    lesion_data := none
    last_response := none
    show_shap := false
    last_uploaded_file := none
    last_input := none
    last_display_metadata := none }

/-- `analysis.reset_all_state`: exactly the nine assignments of the
source; the three `last_*` capture fields are not among them. -/
def reset_all_state (st : SessionState) : SessionState :=
  { st with
    patient_data_ready := false
    patient_is_new := true
    lesion_data_ready := false
    lesion_is_new := true
    analysis_complete := false
    patient_data := none
    lesion_data := none
    last_response := none
    show_shap := false }

/-- Python `str.lower()` (ASCII model, enough for the sex values). -/
def pyLower (s : String) : String :=
  String.mk (s.toList.map Char.toLower)

/-- Python `str.title()` (applied to `sex` for display metadata). -/
def pyTitle (s : String) : String :=
  String.mk ((s.toList.foldl
    (fun st c =>
      if c.isAlpha then
        (if st.2 then c.toLower :: st.1 else c.toUpper :: st.1, true)
      else (c :: st.1, false))
    (([] : List Char), false)).1.reverse)

/-- The backend as seen by `perform_analysis`: the three persistence /
inference calls it can make, each returning the deserialized success value
or the message of the exception the service layer raised. -/
structure Backend where
  create_patient : String → String → String → String → Except String Patient
  create_lesion : String → String → String → ℚ → Except String Lesion
  submit_prediction : String → Int → String → String → ℚ → String → String →
    Except String PredictionResponse

/-- A database write observed at the backend during one
`perform_analysis` call. -/
inductive DbWrite where
  | patient (p : Patient)
  | lesion (l : Lesion)
deriving DecidableEq, Repr

/-- `analysis.perform_analysis`.  The outer `Except` is an exception
thrown outside the `try` block (missing drafts or an unparseable stored
date of birth); inside the `try`, a failing step stops the sequence and
surfaces its message, leaving every session-state mutation already made in
place.  Results: new session state, backend writes that succeeded, and the
surfaced error message, if any. -/
def perform_analysis (b : Backend) (nowd : NowDT) (t : Stamp)
    (st : SessionState) (uploaded_file : String) (current_size_mm : ℚ) :
    Except String (SessionState × List DbWrite × Option String) := do
  let pd ← match st.patient_data with
    | some pd => pure pd
    | none => Except.error "TypeError: patient_data is None"
  let ld ← match st.lesion_data with
    | some ld => pure ld
    | none => Except.error "TypeError: lesion_data is None"
  let age ← calculate_age_from_dob nowd pd.date_of_birth
  -- STEP 1: create patient if NEW
  let step1 :
      (SessionState × List DbWrite × String) ⊕ (SessionState × List DbWrite × Option String) :=
    if st.patient_is_new then
      match b.create_patient (generate_patient_id t) pd.full_name (pyLower pd.sex)
          pd.date_of_birth with
      | .ok p =>
        .inl ({ st with patient_data := some { pd with patient_id := some p.patient_id } },
              [.patient p], p.patient_id)
      | .error e => .inr (st, [], some ("Analysis failed: " ++ e))
    else .inl (st, [], pd.patient_id.getD "")
  match step1 with
  | .inr aborted => pure aborted
  | .inl (st1, w1, patient_id) =>
    -- STEP 2: create lesion if NEW
    let step2 :
        (SessionState × List DbWrite × String) ⊕ (SessionState × List DbWrite × Option String) :=
      if st.lesion_is_new then
        match generate_lesion_id ld.location none t.time with
        | .error e => .inr (st1, w1, some ("Analysis failed: " ++ e))
        | .ok lesion_id =>
          match b.create_lesion lesion_id patient_id ld.location ld.initial_size_mm with
          | .ok l =>
            .inl ({ st1 with lesion_data := some { ld with lesion_id := some l.lesion_id } },
                  w1 ++ [.lesion l], l.lesion_id)
          | .error e => .inr (st1, w1, some ("Analysis failed: " ++ e))
      else .inl (st1, w1, ld.lesion_id.getD "")
    match step2 with
    | .inr aborted => pure aborted
    | .inl (st2, w2, lesion_id) =>
      -- STEP 3: perform analysis
      match b.submit_prediction uploaded_file age pd.sex ld.location current_size_mm
          patient_id lesion_id with
      | .error e => pure (st2, w2, some ("Analysis failed: " ++ e))
      | .ok response =>
        pure
          ({ st2 with
              last_response := some response
              last_uploaded_file := some uploaded_file
              last_input := some ⟨age, pd.sex, ld.location, current_size_mm⟩
              last_display_metadata :=
                some ⟨age, pyTitle pd.sex, ld.location_display, current_size_mm⟩
              analysis_complete := true
              show_shap := false
              patient_is_new := false
              lesion_is_new := false },
            w2, none)

/-! ## Theorems -/

/-- Equality of modelled call results is decidable (used to evaluate the
workflow at concrete inputs). -/
instance {ε α : Type} [DecidableEq ε] [DecidableEq α] : DecidableEq (Except ε α) := fun x y =>
  match x, y with
  | .ok a, .ok b =>
    if h : a = b then isTrue (by rw [h]) else isFalse (fun he => by cases he; exact h rfl)
  | .error a, .error b =>
    if h : a = b then isTrue (by rw [h]) else isFalse (fun he => by cases he; exact h rfl)
  | .ok _, .error _ => isFalse (fun he => by cases he)
  | .error _, .ok _ => isFalse (fun he => by cases he)


/-- C5, counterexample: the claim says current-size validation fails for
size 0, but `validate_current_lesion_size` accepts 0 (the lower bound
check is `size_mm < DIAMETER_MIN` with `DIAMETER_MIN = 0.0`, so 0 passes,
contrary to the half-open interval of the claim). -/
theorem c5_counterexample : validate_current_lesion_size (some 0) = (true, "") := by
  decide

/-- C5, amended: current-size validation passes exactly on the closed
interval [0, 200] millimeters (size 0 included), and initial-size
validation passes exactly for strictly positive sizes, hence fails for
every size less than or equal to 0. -/
theorem c5_amended (q : ℚ) :
    ((validate_current_lesion_size (some q)).1 = true ↔ 0 ≤ q ∧ q ≤ 200) ∧
    ((validate_initial_lesion_size (some q)).1 = true ↔ 0 < q) := by
  constructor
  · simp only [validate_current_lesion_size, DIAMETER_MIN, DIAMETER_MAX]
    split_ifs with h1 h2
    · simp
      intro h
      linarith
    · simp
      intro h
      linarith
    · simp
      exact ⟨by linarith, by linarith⟩
  · simp only [validate_initial_lesion_size]
    split_ifs with h1 <;> simp <;> linarith

/-- C6, counterexample: the claim says the explicit full reset returns
every workflow field to its initial empty value, but on a state holding a
completed analysis the uploaded image and the captured input metadata
survive `reset_all_state` (only `last_response` and the flags are
cleared), while in the initial state these fields are empty. -/
theorem c6_counterexample :
    (reset_all_state
        { initialState with
            analysis_complete := true
            last_uploaded_file := some "lesion.png"
            last_input := some ⟨45, "male", "left leg", 6⟩
            last_display_metadata := some ⟨45, "Male", "Left Leg", 6⟩ }).last_uploaded_file
      = some "lesion.png" ∧
    (reset_all_state
        { initialState with
            analysis_complete := true
            last_uploaded_file := some "lesion.png"
            last_input := some ⟨45, "male", "left leg", 6⟩
            last_display_metadata := some ⟨45, "Male", "Left Leg", 6⟩ }).last_input
      = some ⟨45, "male", "left leg", 6⟩ ∧
    initialState.last_uploaded_file = none ∧ initialState.last_input = none := by
  decide

/-- C6, amended: `reset_all_state` returns the four step flags, the
analysis-complete flag, the patient and lesion drafts, the stored analysis
response and the explanation toggle to their initial values, but leaves
the stored uploaded image and the captured input metadata
(`last_uploaded_file`, `last_input`, `last_display_metadata`) unchanged. -/
theorem c6_amended (st : SessionState) :
    (reset_all_state st).patient_data_ready = false ∧
    (reset_all_state st).patient_is_new = true ∧
    (reset_all_state st).lesion_data_ready = false ∧
    (reset_all_state st).lesion_is_new = true ∧
    (reset_all_state st).analysis_complete = false ∧
    (reset_all_state st).patient_data = none ∧
    (reset_all_state st).lesion_data = none ∧
    (reset_all_state st).last_response = none ∧
    (reset_all_state st).show_shap = false ∧
    (reset_all_state st).last_uploaded_file = st.last_uploaded_file ∧
    (reset_all_state st).last_input = st.last_input ∧
    (reset_all_state st).last_display_metadata = st.last_display_metadata := by
  simp [reset_all_state]

/-- C9: a search term shorter than 2 characters returns an empty list with
no request issued (the first component of the result records whether the
search request went out); a term of length at least 2 issues the request. -/
theorem c9_search_gate (term : String) (o : HttpOutcome (List Patient)) :
    (term.length < 2 → search_patients_by_name term o = (false, .ok [])) ∧
    (2 ≤ term.length → (search_patients_by_name term o).1 = true) := by
  constructor
  · intro h
    simp [search_patients_by_name, h]
  · intro h
    simp [search_patients_by_name, Nat.not_lt.mpr h]

/-- C9, witness: a 1-character term yields `[]` without a request;
a 2-character term issues the request. -/
theorem c9_witness :
    search_patients_by_name "a" (.connFail "refused") = (false, .ok []) ∧
    (search_patients_by_name "ab" (.connFail "refused")).1 = true :=
  ⟨(c9_search_gate "a" (.connFail "refused")).1 (by decide),
   (c9_search_gate "ab" (.connFail "refused")).2 (by decide)⟩

/-- C3, counterexample: the claim includes `search_patients_by_name` among
the calls that map an HTTP 404 to an empty result, but its handler has no
404 special case — a 404 on a 2-character search raises a search-failed
error carrying the detail message instead of returning `[]`. -/
theorem c3_counterexample :
    search_patients_by_name "ab" (.response 404 none (some "Patients not found")) =
      (true, .error "Search failed: Patients not found") := rfl

/-- C3, amended: for `get_patient_by_id`, `get_lesion_by_id` and
`get_lesion_analyses` an HTTP 404 yields an absent value or an empty list
rather than a raised error, and any other non-2xx response with a
machine-readable error body raises an error carrying the detail message;
`search_patients_by_name` has no 404 special case and raises on every
non-2xx response, including 404, carrying the detail message. -/
theorem c3_amended (status : Nat) (d : String) (term : String)
    (jp : Option Patient) (jl : Option Lesion) (ja : Option (List AnalysisItem))
    (jps : Option (List Patient)) (now : PyDateTime) :
    (get_patient_by_id (.response 404 jp (some d)) = .ok none) ∧
    (get_lesion_by_id (.response 404 jl (some d)) = .ok none) ∧
    (get_lesion_analyses now (.response 404 ja (some d)) = .ok []) ∧
    (isHTTPError status = true → status ≠ 404 →
      get_patient_by_id (.response status jp (some d)) =
          .error ("Failed to get patient: " ++ d) ∧
        get_lesion_by_id (.response status jl (some d)) =
          .error ("Failed to get lesion: " ++ d) ∧
        get_lesion_analyses now (.response status ja (some d)) =
          .error ("Failed to get lesion analyses: " ++ d)) ∧
    (isHTTPError status = true → 2 ≤ term.length →
      search_patients_by_name term (.response status jps (some d)) =
        (true, .error ("Search failed: " ++ d))) := by
  refine ⟨by simp [get_patient_by_id], by simp [get_lesion_by_id],
    by simp [get_lesion_analyses, isHTTPError], ?_, ?_⟩
  · intro herr h404
    have h404b : (status == 404) = false := by simp [h404]
    refine ⟨?_, ?_, ?_⟩ <;>
      simp [get_patient_by_id, get_lesion_by_id, get_lesion_analyses,
        h404b, herr, errorDetail]
  · intro herr hlen
    simp [search_patients_by_name, Nat.not_lt.mpr hlen, herr, errorDetail]

/-- C3, witness: instantiation at a 500 response with a detail body and at
a 404 search. -/
theorem c3_witness :
    get_patient_by_id (.response 404 none (some "nf")) = .ok none ∧
    get_patient_by_id (.response 500 none (some "boom")) =
      .error "Failed to get patient: boom" ∧
    search_patients_by_name "ab" (.response 500 none (some "boom")) =
      (true, .error "Search failed: boom") := by
  refine ⟨(c3_amended 500 "nf" "ab" none none none none
      ⟨2025, 1, 1, 0, 0, 0, 0, none⟩).1, ?_, ?_⟩
  · exact ((c3_amended 500 "boom" "ab" none none none none
      ⟨2025, 1, 1, 0, 0, 0, 0, none⟩).2.2.2.1 (by decide) (by decide)).1
  · exact (c3_amended 500 "boom" "ab" none none none none
      ⟨2025, 1, 1, 0, 0, 0, 0, none⟩).2.2.2.2 (by decide) (by decide)

/-- C4, counterexample: the claim says `get_feature_display_names` never
propagates any failure, but a non-404 HTTP error (here a 500 with a detail
body) raises an error instead of returning the empty mapping. -/
theorem c4_counterexample :
    get_feature_display_names (.response 500 none (some "internal error")) =
      .error "Failed to get feature names: internal error" := rfl

/-- C4, amended: `get_feature_display_names` returns an empty mapping on a
404 response and on any connection-level failure (including an
undecodable success body), but a non-2xx, non-404 HTTP error raises an
error carrying the detail message when one is present. -/
theorem c4_amended (msg : String) (j : Option (List (String × String)))
    (d : Option String) (status : Nat) :
    (get_feature_display_names (.connFail msg) = .ok []) ∧
    (get_feature_display_names (.response 404 j d) = .ok []) ∧
    (get_feature_display_names (.response 200 none d) = .ok []) ∧
    (isHTTPError status = true → status ≠ 404 →
      get_feature_display_names (.response status j d) =
        .error ("Failed to get feature names: " ++ errorDetail status d)) := by
  refine ⟨rfl, by simp [get_feature_display_names, isHTTPError],
    by simp [get_feature_display_names, isHTTPError], ?_⟩
  intro herr h404
  have h404b : (status == 404) = false := by simp [h404]
  simp [get_feature_display_names, herr, h404b]

/-- C4, witness: instantiation at a connection failure, a 404, and a 503
with a detail body. -/
theorem c4_witness :
    get_feature_display_names (.connFail "timeout") = .ok [] ∧
    get_feature_display_names (.response 404 none none) = .ok [] ∧
    get_feature_display_names (.response 503 none (some "unavailable")) =
      .error "Failed to get feature names: unavailable" := by
  refine ⟨(c4_amended "timeout" none none 503).1,
    (c4_amended "timeout" none none 503).2.1, ?_⟩
  exact (c4_amended "timeout" none (some "unavailable") 503).2.2.2 (by decide) (by decide)

/-- C10: `capture_datetime` is total — an unparseable (or absent)
`capture_date` falls back to the supplied `datetime.now()` value instead
of raising — and therefore the sort key of `get_lesion_analyses` is not a
pure function of the backend record: two different wall-clock instants
give two different keys for the same unparseable record. -/
theorem c10_capture_datetime_fallback (now : PyDateTime) (c : AnalysisCase) :
    (∀ s, c.capture_date = some s → fromisoformat (replaceZ s) = none →
      capture_datetime now c = now) ∧
    (c.capture_date = none → capture_datetime now c = now) ∧
    (∃ c0 : AnalysisCase, ∃ n1 n2 : PyDateTime, n1 ≠ n2 ∧
      captureKey n1 c0 ≠ captureKey n2 c0) := by
  refine ⟨?_, ?_, ?_⟩
  · intro s hs hparse
    simp [capture_datetime, hs, hparse]
  · intro hs
    simp [capture_datetime, hs]
  · refine ⟨⟨none, none, none, none, none, some "not a date", 0, 0, 0, 0, 0,
      none, none, [], none, none, []⟩,
      ⟨2024, 1, 1, 0, 0, 0, 0, none⟩, ⟨2025, 1, 1, 0, 0, 0, 0, none⟩, ?_, ?_⟩ <;> decide

/-- C10, witness: the fallback branches applied at a record with an
unparseable capture date and at a record with no capture date. -/
theorem c10_witness :
    capture_datetime ⟨2025, 6, 1, 12, 0, 0, 0, none⟩
        ⟨none, none, none, none, none, some "yesterday", 0, 0, 0, 0, 0,
          none, none, [], none, none, []⟩ =
      ⟨2025, 6, 1, 12, 0, 0, 0, none⟩ ∧
    capture_datetime ⟨2025, 6, 1, 12, 0, 0, 0, none⟩
        ⟨none, none, none, none, none, none, 0, 0, 0, 0, 0,
          none, none, [], none, none, []⟩ =
      ⟨2025, 6, 1, 12, 0, 0, 0, none⟩ :=
  ⟨(c10_capture_datetime_fallback ⟨2025, 6, 1, 12, 0, 0, 0, none⟩
      ⟨none, none, none, none, none, some "yesterday", 0, 0, 0, 0, 0,
        none, none, [], none, none, []⟩).1 "yesterday" rfl (by decide),
   (c10_capture_datetime_fallback ⟨2025, 6, 1, 12, 0, 0, 0, none⟩
      ⟨none, none, none, none, none, none, 0, 0, 0, 0, 0,
        none, none, [], none, none, []⟩).2.1 rfl⟩

/-- The last three characters of `%H%M%S` are the digits
minute-mod-10, tens-of-seconds, seconds-mod-10. -/
theorem takeLast_hhmmss (c : Clock) :
    takeLast 3 (hhmmss c) =
      [Nat.digitChar (c.minute.val % 10), Nat.digitChar (c.second.val / 10 % 10),
       Nat.digitChar (c.second.val % 10)] := rfl

/-- C7: for every entry of the seven-value anatomical enumeration and any
counter argument in range (or absent), `generate_lesion_id` returns
`LESION_` followed by that entry's 2-letter code, an underscore and
exactly three decimal digits; for every API location string outside the
enumeration it raises a `ValueError` instead of returning an ID. -/
theorem c7_generate_lesion_id :
    (∀ e ∈ ANATOMICAL_LOCATIONS, ∀ (counter : Option Int) (now : Clock),
      (∀ c, counter = some c → 1 ≤ c ∧ c ≤ 999) →
      e.code.length = 2 ∧
      ∃ nnn : List Char,
        generate_lesion_id e.api_value counter now =
          .ok ("LESION_" ++ e.code ++ "_" ++ String.mk nnn) ∧
        nnn.length = 3 ∧ ∀ ch ∈ nnn, ch.isDigit = true) ∧
    (∀ loc, loc ∉ VALID_ANATOMICAL_LOCATIONS → ∀ (counter : Option Int) (now : Clock),
      ∃ msg, generate_lesion_id loc counter now = .error msg) := by
  constructor
  · intro e he counter now hc
    have hcode : get_location_code e.api_value = .ok e.code := by
      fin_cases he <;> rfl
    have hlen : e.code.length = 2 := by fin_cases he <;> rfl
    refine ⟨hlen, ?_⟩
    match counter with
    | none =>
      refine ⟨takeLast 3 (hhmmss now), ?_, rfl, ?_⟩
      · simp [generate_lesion_id, hcode]
      · rw [takeLast_hhmmss]
        intro ch hch
        fin_cases hch <;> exact digitChar_mod10_isDigit _
    | some cv =>
      obtain ⟨h1, h2⟩ := hc cv rfl
      refine ⟨pad3 cv.toNat, ?_, rfl, ?_⟩
      · simp [generate_lesion_id, hcode, h1, h2]
      · intro ch hch
        fin_cases hch <;> exact digitChar_mod10_isDigit _
  · intro loc hloc counter now
    have hnone : ANATOMICAL_LOCATIONS.find? (fun d => d.api_value == loc) = none := by
      rw [List.find?_eq_none]
      intro e he
      simp only [beq_iff_eq]
      intro hEq
      exact hloc (hEq ▸ List.mem_map_of_mem (·.api_value) he)
    refine ⟨"Unknown location: " ++ loc, ?_⟩
    simp [generate_lesion_id, get_location_code, hnone, Bind.bind, Except.bind]

/-- C7, witness: a valid location with no counter and with an in-range
counter, and an unrecognized location. -/
theorem c7_witness :
    (∃ nnn : List Char,
      generate_lesion_id "left leg" none ⟨⟨14, by decide⟩, ⟨30, by decide⟩, ⟨25, by decide⟩⟩ =
        .ok ("LESION_" ++ "LL" ++ "_" ++ String.mk nnn) ∧
      nnn.length = 3 ∧ ∀ ch ∈ nnn, ch.isDigit = true) ∧
    (∃ msg, generate_lesion_id "belly" (some 7)
        ⟨⟨14, by decide⟩, ⟨30, by decide⟩, ⟨25, by decide⟩⟩ = .error msg) :=
  ⟨((c7_generate_lesion_id.1 ⟨"Left Leg", "left leg", "LL"⟩ (by decide) none
      ⟨⟨14, by decide⟩, ⟨30, by decide⟩, ⟨25, by decide⟩⟩
      (fun c h => by cases h)).2 : _),
   c7_generate_lesion_id.2 "belly" (by decide) (some 7)
      ⟨⟨14, by decide⟩, ⟨30, by decide⟩, ⟨25, by decide⟩⟩⟩

/-- `sortInsert` permutes `a` into the list. -/
theorem sortInsert_perm (key : α → Int) (a : α) (l : List α) :
    List.Perm (sortInsert key a l) (a :: l) := by
  induction l with
  | nil => rfl
  | cons b t ih =>
    simp only [sortInsert]
    split_ifs
    · exact List.Perm.refl _
    · exact ((ih.cons b).trans (List.Perm.swap a b t))

/-- `sortStable` is a permutation of its input. -/
theorem sortStable_perm (key : α → Int) (l : List α) : List.Perm (sortStable key l) l := by
  induction l with
  | nil => rfl
  | cons a t ih => exact (sortInsert_perm key a (sortStable key t)).trans (ih.cons a)

/-- Inserting into a key-sorted list keeps it key-sorted. -/
theorem sortInsert_pairwise (key : α → Int) (a : α) (l : List α)
    (h : l.Pairwise (fun x y => key x ≤ key y)) :
    (sortInsert key a l).Pairwise (fun x y => key x ≤ key y) := by
  induction l with
  | nil => simp [sortInsert]
  | cons b t ih =>
    rw [List.pairwise_cons] at h
    simp only [sortInsert]
    split_ifs with hab
    · rw [List.pairwise_cons]
      refine ⟨?_, List.pairwise_cons.mpr h⟩
      intro x hx
      rcases List.mem_cons.mp hx with hx | hx
      · exact hx ▸ hab
      · exact le_trans hab (h.1 x hx)
    · rw [List.pairwise_cons]
      refine ⟨?_, ih h.2⟩
      intro x hx
      have hx2 := (sortInsert_perm key a t).mem_iff.mp hx
      rcases List.mem_cons.mp hx2 with hx3 | hx3
      · exact hx3 ▸ le_of_not_le hab
      · exact h.1 x hx3

/-- `sortStable` output is ascending by key. -/
theorem sortStable_pairwise (key : α → Int) (l : List α) :
    (sortStable key l).Pairwise (fun x y => key x ≤ key y) := by
  induction l with
  | nil => exact List.Pairwise.nil
  | cons a t ih => exact sortInsert_pairwise key a (sortStable key t) ih

/-- Stability of one insertion: restricted to any single key value, the
inserted list reads exactly like `a` prepended (the elements the insertion
skips all have strictly smaller keys). -/
theorem sortInsert_filter (key : α → Int) (k : Int) (a : α) (l : List α) :
    (sortInsert key a l).filter (fun x => key x == k) =
      (a :: l).filter (fun x => key x == k) := by
  induction l with
  | nil => rfl
  | cons b t ih =>
    simp only [sortInsert]
    split_ifs with hab
    · rfl
    · have hlt : key b < key a := lt_of_not_le hab
      rw [List.filter_cons, ih]
      by_cases hbk : key b = k
      · have hak : ¬(key a = k) := by
          intro hak
          rw [hak, hbk] at hlt
          exact lt_irrefl k hlt
        simp [List.filter_cons, beq_iff_eq, hbk, hak]
      · simp [List.filter_cons, beq_iff_eq, hbk]

/-- Stability of the whole sort: for every key value, the sorted list
restricted to that key equals the input restricted to that key —
equal-key elements keep their encounter order. -/
theorem sortStable_filter (key : α → Int) (k : Int) (l : List α) :
    (sortStable key l).filter (fun x => key x == k) =
      l.filter (fun x => key x == k) := by
  induction l with
  | nil => rfl
  | cons a t ih =>
    rw [sortStable, sortInsert_filter, List.filter_cons, List.filter_cons, ih]

/-- C2, counterexample: the claim quantifies over every backend response
list, but a list mixing a parseable `Z`-dated record (offset-aware after
the `Z` replacement) with an unparseable one (offset-naive
`datetime.now()` fallback) makes the sort compare a naive against an
aware datetime, so `get_lesion_analyses` raises an uncaught `TypeError`
instead of returning a sorted list. -/
theorem c2_counterexample :
    get_lesion_analyses ⟨2025, 6, 1, 12, 0, 0, 0, none⟩
      (.response 200 (some
        [⟨none, none, none, none, none, none, none,
          some ⟨some "2025-01-01T00:00:00Z", none⟩, none, none⟩,
         ⟨none, none, none, none, none, none, none,
          some ⟨some "garbage", none⟩, none, none⟩]) none) =
      .error "TypeError: cannot compare offset-naive and offset-aware datetimes" := by
  decide

/-- C2, amended: when the capture datetimes of the parsed records are
uniformly comparable — not both an offset-naive and an offset-aware value
present — `get_lesion_analyses` returns the parsed `AnalysisCase` records
sorted ascending by capture datetime, as a permutation of the parsed
response with equal-key records in encounter order; when both classes are
present the sort raises an uncaught `TypeError`. -/
theorem c2_amended (now : PyDateTime) (items : List AnalysisItem) (d : Option String) :
    (((((items.map parseAnalysisItem).map (capture_datetime now)).any
          fun k => k.offset.isNone) &&
      (((items.map parseAnalysisItem).map (capture_datetime now)).any
          fun k => k.offset.isSome)) = false →
      ∃ out : List AnalysisCase,
        get_lesion_analyses now (.response 200 (some items) d) = .ok out ∧
        out.Pairwise (fun a b => captureKey now a ≤ captureKey now b) ∧
        List.Perm out (items.map parseAnalysisItem) ∧
        ∀ k : Int, out.filter (fun c => captureKey now c == k) =
          (items.map parseAnalysisItem).filter (fun c => captureKey now c == k)) ∧
    (((((items.map parseAnalysisItem).map (capture_datetime now)).any
          fun k => k.offset.isNone) &&
      (((items.map parseAnalysisItem).map (capture_datetime now)).any
          fun k => k.offset.isSome)) = true →
      get_lesion_analyses now (.response 200 (some items) d) =
        .error "TypeError: cannot compare offset-naive and offset-aware datetimes") := by
  have e : get_lesion_analyses now (.response 200 (some items) d) =
      pySortByCaptureDatetime now (items.map parseAnalysisItem) := rfl
  constructor
  · intro h
    refine ⟨sortStable (captureKey now) (items.map parseAnalysisItem), ?_,
      sortStable_pairwise _ _, sortStable_perm _ _, fun k => sortStable_filter _ k _⟩
    rw [e]
    simp only [pySortByCaptureDatetime]
    rw [h]
    rfl
  · intro h
    rw [e]
    simp only [pySortByCaptureDatetime]
    rw [h]
    rfl

/-- C2, witness: a uniformly naive response list sorts, and a mixed
naive/aware response list raises the `TypeError`. -/
theorem c2_witness :
    (∃ out : List AnalysisCase,
      get_lesion_analyses ⟨2025, 6, 1, 12, 0, 0, 0, none⟩
        (.response 200 (some
          [⟨none, none, none, none, none, none, none,
            some ⟨some "2025-01-02T00:00:00", none⟩, none, none⟩,
           ⟨none, none, none, none, none, none, none,
            some ⟨some "2025-01-01T00:00:00", none⟩, none, none⟩]) none) = .ok out ∧
      out.Pairwise (fun a b =>
        captureKey ⟨2025, 6, 1, 12, 0, 0, 0, none⟩ a ≤
          captureKey ⟨2025, 6, 1, 12, 0, 0, 0, none⟩ b) ∧
      List.Perm out
        ([⟨none, none, none, none, none, none, none,
            some ⟨some "2025-01-02T00:00:00", none⟩, none, none⟩,
          (⟨none, none, none, none, none, none, none,
            some ⟨some "2025-01-01T00:00:00", none⟩, none, none⟩ : AnalysisItem)].map
          parseAnalysisItem) ∧
      ∀ k : Int,
        out.filter (fun c => captureKey ⟨2025, 6, 1, 12, 0, 0, 0, none⟩ c == k) =
          ([⟨none, none, none, none, none, none, none,
              some ⟨some "2025-01-02T00:00:00", none⟩, none, none⟩,
            (⟨none, none, none, none, none, none, none,
              some ⟨some "2025-01-01T00:00:00", none⟩, none, none⟩ : AnalysisItem)].map
            parseAnalysisItem).filter
            (fun c => captureKey ⟨2025, 6, 1, 12, 0, 0, 0, none⟩ c == k)) ∧
    get_lesion_analyses ⟨2025, 6, 1, 12, 0, 0, 0, none⟩
      (.response 200 (some
        [⟨none, none, none, none, none, none, none,
          some ⟨some "2024-06-01T00:00:00Z", none⟩, none, none⟩,
         ⟨none, none, none, none, none, none, none,
          some ⟨some "bad-date", none⟩, none, none⟩]) none) =
      .error "TypeError: cannot compare offset-naive and offset-aware datetimes" :=
  ⟨(c2_amended ⟨2025, 6, 1, 12, 0, 0, 0, none⟩
      [⟨none, none, none, none, none, none, none,
        some ⟨some "2025-01-02T00:00:00", none⟩, none, none⟩,
       ⟨none, none, none, none, none, none, none,
        some ⟨some "2025-01-01T00:00:00", none⟩, none, none⟩] none).1 (by decide),
   (c2_amended ⟨2025, 6, 1, 12, 0, 0, 0, none⟩
      [⟨none, none, none, none, none, none, none,
        some ⟨some "2024-06-01T00:00:00Z", none⟩, none, none⟩,
       ⟨none, none, none, none, none, none, none,
        some ⟨some "bad-date", none⟩, none, none⟩] none).2 (by decide)⟩

/-- The age cutoff in integer days: `days / 365.25 > 120` is exactly
`days > 43830` (the float arithmetic is exact at the boundary, since
`365.25` and `120 * 365.25 = 43830` are representable). -/
theorem age_condition_iff (n : Nat) :
    ((n : ℚ) / (36525 / 100) > (AGE_MAX : ℚ)) ↔ 43830 < n := by
  rw [AGE_MAX, gt_iff_lt, lt_div_iff₀ (by norm_num)]
  norm_num

/-- C8, counterexample: the empty string does not match the fixed
DD/MM/YYYY pattern, yet `validate_date_of_birth` fails on it with the
required-field message, not the format-error message the claim asserts. -/
theorem c8_counterexample :
    validate_date_of_birth ⟨toOrdinal 2026 10 12, 0⟩ "" =
      (false, "Date of birth is required") ∧
    "Date of birth is required" ≠
      "Invalid date format. Please use DD/MM/YYYY (e.g., 23/07/1980)" := by
  decide

/-- C8, amended: `validate_date_of_birth` fails with a required-field
message on an empty or whitespace-only string; on any other string it
fails with the format-error message when the string does not parse under
the fixed DD/MM/YYYY pattern, fails with the future-date message when the
parsed date is strictly after now, fails with the age message when the
implied age exceeds 120 years (more than 43830 days), and passes
otherwise. -/
theorem c8_amended (now : NowDT) (s : String) :
    (s.toList.all Char.isWhitespace = true →
      validate_date_of_birth now s = (false, "Date of birth is required")) ∧
    (s.toList.all Char.isWhitespace = false → strptimeDMY s = none →
      validate_date_of_birth now s =
        (false, "Invalid date format. Please use DD/MM/YYYY (e.g., 23/07/1980)")) ∧
    (∀ y m d, s.toList.all Char.isWhitespace = false → strptimeDMY s = some (y, m, d) →
      (toOrdinal y m d * 86400 > now.ord * 86400 + now.tod →
        validate_date_of_birth now s = (false, "Date of birth cannot be in the future")) ∧
      (toOrdinal y m d * 86400 ≤ now.ord * 86400 + now.tod →
        (43830 < daysBetween now (toOrdinal y m d) →
          validate_date_of_birth now s = (false, "Age cannot exceed 120 years")) ∧
        (daysBetween now (toOrdinal y m d) ≤ 43830 →
          validate_date_of_birth now s = (true, "")))) := by
  refine ⟨?_, ?_, ?_⟩
  · intro h
    unfold validate_date_of_birth
    rw [h]
    rfl
  · intro h hp
    unfold validate_date_of_birth
    rw [h, hp]
    rfl
  · intro y m d h hp
    have e : validate_date_of_birth now s =
        (if now.ord * 86400 + now.tod < toOrdinal y m d * 86400 then
          (false, "Date of birth cannot be in the future")
        else if (AGE_MAX : ℚ) < ((daysBetween now (toOrdinal y m d) : ℚ)) / (36525 / 100) then
          (false, "Age cannot exceed 120 years")
        else (true, "")) := by
      unfold validate_date_of_birth
      rw [h, hp]
      rfl
    constructor
    · intro hf
      rw [e, if_pos hf]
    · intro hnf
      constructor
      · intro hage
        have hq := (age_condition_iff (daysBetween now (toOrdinal y m d))).mpr hage
        rw [e, if_neg (not_lt.mpr hnf), if_pos hq]
      · intro hage
        have hq : ¬((AGE_MAX : ℚ) < ((daysBetween now (toOrdinal y m d) : ℚ)) / (36525 / 100)) := by
          rw [show ((AGE_MAX : ℚ) < ((daysBetween now (toOrdinal y m d) : ℚ)) / (36525 / 100)) =
              (((daysBetween now (toOrdinal y m d) : ℚ)) / (36525 / 100) > (AGE_MAX : ℚ)) from rfl,
            age_condition_iff]
          omega
        rw [e, if_neg (not_lt.mpr hnf), if_neg hq]

/-- C8, witness: a well-formed, non-future, in-range date of birth
passes at a concrete now. -/
theorem c8_witness :
    validate_date_of_birth ⟨toOrdinal 2026 10 12, 0⟩ "13/07/1980" = (true, "") :=
  (((c8_amended ⟨toOrdinal 2026 10 12, 0⟩ "13/07/1980").2.2 1980 7 13
      (by decide) (by decide)).2 (by decide)).2 (by decide)

/-- Backend for the partial-failure scenario: both persistence calls
succeed and echo the submitted records; the prediction call fails. -/
def c1Backend : Backend where
  create_patient := fun pid name sex dob => .ok ⟨pid, name, sex, dob, none, none⟩
  create_lesion := fun lid pid loc size => .ok ⟨lid, pid, loc, size, none, none⟩
  submit_prediction := fun _ _ _ _ _ _ _ => .error "API Error: model unavailable"

/-- Session state in `LesionChosen` with a new patient draft and a new
lesion draft captured. -/
def c1State : SessionState :=
  { initialState with
    patient_data_ready := true
    lesion_data_ready := true
    patient_data := some ⟨"Jane Doe", "01/01/1990", "Female", none⟩
    lesion_data := some ⟨"left leg", "Left Leg", 5, none⟩ }

/-- Wall-clock date of the scenario (2025-01-26, 14:30:25). -/
def c1Now : NowDT := ⟨toOrdinal 2025 1 26, 52225⟩

/-- Timestamp of the first `perform_analysis` call (14:30:25). -/
def c1Stamp1 : Stamp := ⟨2025, 1, 26, ⟨⟨14, by decide⟩, ⟨30, by decide⟩, ⟨25, by decide⟩⟩⟩

/-- Timestamp of the retried call (14:31:40). -/
def c1Stamp2 : Stamp := ⟨2025, 1, 26, ⟨⟨14, by decide⟩, ⟨31, by decide⟩, ⟨40, by decide⟩⟩⟩

/-- Session state after the failed first attempt: the generated
identifiers are stored in the drafts, but `patient_is_new` and
`lesion_is_new` are still `true` (they are flipped only after a
successful prediction). -/
def c1StateAfter : SessionState :=
  { c1State with
    patient_data := some ⟨"Jane Doe", "01/01/1990", "Female", some "PAT-20250126143025"⟩
    lesion_data := some ⟨"left leg", "Left Leg", 5, some "LESION_LL_025"⟩ }

/-- Session state after the retried call: a second, different pair of
identifiers has been generated and persisted. -/
def c1StateRetry : SessionState :=
  { c1State with
    patient_data := some ⟨"Jane Doe", "01/01/1990", "Female", some "PAT-20250126143140"⟩
    lesion_data := some ⟨"left leg", "Left Leg", 5, some "LESION_LL_140"⟩ }

/-- C1: when the prediction step fails after patient and lesion creation
succeeded, the workflow stays in `LesionChosen` (`analysis_complete`
false, `lesion_data_ready` true) with an error surfaced, and the two
persisted records are not rolled back — but contrary to the claim, the
new-entity flags remain `true`, so the retried `perform_analysis` call
generates and persists a fresh patient and a fresh lesion with new
identifiers instead of reusing `PAT-20250126143025` / `LESION_LL_025`. -/
theorem c1_retry_persists_new_ids :
    perform_analysis c1Backend c1Now c1Stamp1 c1State "lesion.png" 6 =
      .ok (c1StateAfter,
        [.patient ⟨"PAT-20250126143025", "Jane Doe", "female", "01/01/1990", none, none⟩,
         .lesion ⟨"LESION_LL_025", "PAT-20250126143025", "left leg", 5, none, none⟩],
        some "Analysis failed: API Error: model unavailable") ∧
    c1StateAfter.analysis_complete = false ∧
    c1StateAfter.lesion_data_ready = true ∧
    c1StateAfter.patient_is_new = true ∧
    c1StateAfter.lesion_is_new = true ∧
    perform_analysis c1Backend c1Now c1Stamp2 c1StateAfter "lesion.png" 6 =
      .ok (c1StateRetry,
        [.patient ⟨"PAT-20250126143140", "Jane Doe", "female", "01/01/1990", none, none⟩,
         .lesion ⟨"LESION_LL_140", "PAT-20250126143140", "left leg", 5, none, none⟩],
        some "Analysis failed: API Error: model unavailable") ∧
    "PAT-20250126143140" ≠ "PAT-20250126143025" ∧
    "LESION_LL_140" ≠ "LESION_LL_025" :=
  ⟨by decide, rfl, rfl, rfl, rfl, by decide, by decide, by decide⟩

end SkinLesion
